import Mathlib

/-!
Verification development for the storefront fulfillment pipeline
(transactions, grants, webhook reconciliation, delivery retry protocol).

The definitions below are a shallow embedding of the TypeScript source:
  - server/storage.ts                  (SqliteStorage: record lists + updates)
  - controllers: webhookController (handleEfiBankWebhook,
    handleGenericPaymentWebhook, processApprovedPayment, processFailedPayment),
    paymentController.createPayment, adminController.grantItemsToUser,
    serverController.processPendingDeliveries
  - services/fivemService.ts           (deliverItems, deliverItemsWithRetry)
  - services/efiService.ts             (validateWebhookSignature)

Modelling conventions:
  - Monetary values (SQL REAL) are modelled as rationals; integer counters as Nat/Int.
  - Timestamps are Nat milliseconds; Date.now() becomes an explicit `now` argument.
  - JSON-serialized snapshots (transaction.products, grant.grantData) are stored
    structurally; serialize-then-parse is the identity in the model.
  - crypto.randomUUID() is modelled by a deterministic counter in the store.
  - The HMAC function and the payload parsers are parameters of the handlers
    (they wrap external library calls), so theorems quantify over them.
  - External boundary calls (the FiveM game server) and the two database writes
    that sit inside or outside the per-item try/catch of processApprovedPayment
    (grant insertion, grant status update) are driven by an explicit
    environment that can make any call fail, mirroring thrown exceptions.
-/

namespace Testerp

/-- Transaction status values: pending, approved, cancelled, failed. -/
inductive TxStatus where
  | pending
  | approved
  | cancelled
  | failed
deriving DecidableEq, Repr

/-- Grant status values: pending, delivered, failed. -/
inductive GrantStatus where
  | pending
  | delivered
  | failed
deriving DecidableEq, Repr

/-- The opaque type-specific payload carried in product.data
(fields read by the fulfillment engine: amount for coins, level and duration for vip). -/
structure Payload where
  amount : Option Nat := none
  level : Option String := none
  duration : Option Nat := none
deriving DecidableEq, Repr

/-- One line item of a transaction's immutable product snapshot,
as built by paymentController.createPayment (cartProducts entries). -/
structure LineItem where
  productId : Nat
  code : String
  name : String
  price : ℚ
  quantity : Nat
  subtotal : ℚ
  productType : String
  data : Payload
deriving DecidableEq, Repr

/-- A transaction record (transactions table). -/
structure Transaction where
  id : String
  userId : Nat
  paymentId : Option String := none
  amount : ℚ
  currency : String := "BRL"
  status : TxStatus
  paymentMethod : String := "pix"
  qrCode : Option String := none
  expiresAt : Option Nat := none
  products : List LineItem
  createdAt : Nat := 0
  updatedAt : Nat := 0
deriving DecidableEq, Repr

/-- The grant_data JSON blob: purchase-derived grants carry the product snapshot
fields, admin-issued grants carry a free-form body with amount/level/duration. -/
structure GrantData where
  productId : Option Nat := none
  productName : Option String := none
  quantity : Option Nat := none
  price : Option ℚ := none
  payload : Option Payload := none
  amount : Option Nat := none
  level : Option String := none
  duration : Option Nat := none
deriving DecidableEq, Repr

/-- A grant record (grants table). -/
structure Grant where
  id : String
  transactionId : Option String := none
  userId : Nat
  grantType : String
  grantData : GrantData
  status : GrantStatus
  grantedBy : Option Nat := none
  grantedAt : Nat := 0
deriving DecidableEq, Repr

/-- A user record (the projection relevant to fulfillment). -/
structure User where
  id : Nat
  username : String := ""
  email : String := ""
  role : String := "user"
  fivemIdentifier : Option String := none
  coins : Int := 0
  vipLevel : String := "none"
  vipExpires : Option Nat := none
  banned : Bool := false
  updatedAt : Nat := 0
deriving DecidableEq, Repr

/-- A product record (catalog). stock = -1 is the unlimited-stock sentinel. -/
structure Product where
  id : Nat
  code : String := ""
  name : String := ""
  price : ℚ
  productType : String
  data : Payload := {}
  active : Bool := true
  stock : Int := -1
deriving DecidableEq, Repr

/-- An activity-log entry (only the fields the claims observe). -/
structure ActivityLog where
  userId : Option Nat
  action : String
deriving DecidableEq, Repr

/-- The persistent store: record lists (newest first, matching the
createdAt-descending reads) plus the deterministic UUID counter. -/
structure Store where
  users : List User
  products : List Product
  transactions : List Transaction
  grants : List Grant
  logs : List ActivityLog
  nextUuid : Nat := 0
deriving DecidableEq, Repr

/-! ## Storage operations (SqliteStorage methods, server/storage.ts) -/

/-- storage.getUser: first user record with the given id. -/
def getUser (s : Store) (id : Nat) : Option User :=
  s.users.find? (fun u => u.id == id)

/-- storage.updateUser: apply the field updates to every record with the id
and stamp updatedAt (drizzle .set with updatedAt := new Date()). -/
def updateUser (s : Store) (id : Nat) (f : User → User) (now : Nat) : Store :=
  { s with users := s.users.map (fun u => if u.id == id then { f u with updatedAt := now } else u) }

/-- storage.getProduct. -/
def getProduct (s : Store) (id : Nat) : Option Product :=
  s.products.find? (fun p => p.id == id)

/-- storage.updateProduct: plain field update, no timestamp column. -/
def updateProduct (s : Store) (id : Nat) (f : Product → Product) : Store :=
  { s with products := s.products.map (fun p => if p.id == id then f p else p) }

/-- storage.getTransaction. -/
def getTransaction (s : Store) (id : String) : Option Transaction :=
  s.transactions.find? (fun t => t.id == id)

/-- storage.createTransaction: insert (kept newest first). -/
def createTransaction (s : Store) (t : Transaction) : Store :=
  { s with transactions := t :: s.transactions }

/-- storage.updateTransaction: unconditional single-record update;
stamps updatedAt (drizzle .set with { ...updates, updatedAt: new Date() }).
There is no guard on the previous status. -/
def updateTransaction (s : Store) (id : String) (f : Transaction → Transaction) (now : Nat) : Store :=
  { s with transactions :=
      s.transactions.map (fun t => if t.id == id then { f t with updatedAt := now } else t) }

/-- storage.getAllTransactions(limit, offset): createdAt-descending page. -/
def getAllTransactions (s : Store) (limit offset : Nat) : List Transaction :=
  (s.transactions.drop offset).take limit

/-- storage.createGrant: insert (kept newest first). -/
def createGrant (s : Store) (g : Grant) : Store :=
  { s with grants := g :: s.grants }

/-- storage.updateGrant: unconditional field update (no timestamp column). -/
def updateGrant (s : Store) (id : String) (f : Grant → Grant) : Store :=
  { s with grants := s.grants.map (fun g => if g.id == id then f g else g) }

/-- storage.getPendingGrants: all grants with status pending. -/
def getPendingGrants (s : Store) : List Grant :=
  s.grants.filter (fun g => g.status == GrantStatus.pending)

/-- storage.logActivity: append one audit entry. -/
def logActivity (s : Store) (userId : Option Nat) (action : String) : Store :=
  { s with logs := { userId := userId, action := action } :: s.logs }

/-- crypto.randomUUID(), modelled as a deterministic fresh-name supply. -/
def freshId (s : Store) : String × Store :=
  (String.append "uuid-" (toString s.nextUuid), { s with nextUuid := s.nextUuid + 1 })

/-! ## JavaScript truthiness helpers (the || defaulting idiom) -/

/-- JS `x || d` for an optional number field: undefined and 0 are falsy. -/
def jsOrNat (x : Option Nat) (d : Nat) : Nat :=
  match x with
  | none => d
  | some 0 => d
  | some n => n

/-- JS `x || d` for an optional string field: undefined and the empty string are falsy. -/
def jsOrStr (x : Option String) (d : String) : String :=
  match x with
  | none => d
  | some v => if v = "" then d else v

/-! ## FivemService (server/services/fivemService.ts)

makeRequest either throws (transport error, wrapped into an Error by the
catch in makeRequest) or yields the game server's JSON response; the model
takes that outcome as an argument of type Except String ServerResponse. -/

/-- The game-server boundary's response body, as read by deliverItems
(response.success, response.message, response.playerOnline). -/
structure ServerResponse where
  success : Bool
  message : Option String := none
  playerOnline : Option Bool := none
deriving DecidableEq, Repr

/-- The DeliveryResult interface of fivemService. retryAfter is in seconds. -/
structure DeliveryResult where
  success : Bool
  message : String
  delivered : Bool
  retryAfter : Option Nat := none
deriving DecidableEq, Repr

/-- FivemService.retryAttempts (constructor constant). -/
def retryAttempts : Nat := 3

/-- FivemService.retryDelay in milliseconds (constructor constant). -/
def retryDelay : Nat := 5000

/-- FivemService.deliverItems: interprets one boundary call.
A thrown transport error is caught inside and converted to
delivered = false with retryAfter 60; a non-success response proposes
retryAfter 300 when the response says playerOnline === false, else 60.
This function never throws. -/
def deliverItems (outcome : Except String ServerResponse) : DeliveryResult :=
  match outcome with
  | Except.ok r =>
      if r.success then
        { success := true
          message := jsOrStr r.message "Items delivered successfully"
          delivered := true }
      else
        { success := false
          message := jsOrStr r.message "Failed to deliver items"
          delivered := false
          retryAfter := some (if r.playerOnline == some false then 300 else 60) }
  | Except.error e =>
      { success := false
        message := jsOrStr (some e) "Server communication error"
        delivered := false
        retryAfter := some 60 }

/-- Observable behavior of one deliverItemsWithRetry call: the returned
DeliveryResult plus how many attempts were made and how many retryDelay
sleeps were performed. -/
structure RetryTrace where
  result : DeliveryResult
  attempts : Nat
  delays : Nat
deriving DecidableEq, Repr

/-- The body of the for-loop of deliverItemsWithRetry; outcome gives the
boundary result of each attempt (indexed from 1), remaining is
retryAttempts - attempt + 1. The remaining = 0 case is never reached
(the loop always runs at least once since retryAttempts is 3). -/
def retryLoop (outcome : Nat → Except String ServerResponse) (attempt : Nat) :
    Nat → RetryTrace
  | 0 => { result := deliverItems (outcome attempt), attempts := 0, delays := 0 }
  | n + 1 =>
    let r := deliverItems (outcome attempt)
    if r.delivered then
      { result := r, attempts := 1, delays := 0 }
    else if n = 0 then
      -- attempt = retryAttempts: no further sleep, the loop ends and
      -- the function returns lastResult
      { result := r, attempts := 1, delays := 0 }
    else
      let rest := retryLoop outcome (attempt + 1) n
      { result := rest.result, attempts := rest.attempts + 1, delays := rest.delays + 1 }

/-- FivemService.deliverItemsWithRetry: up to retryAttempts synchronous
attempts with a retryDelay sleep between consecutive attempts, returning
as soon as one attempt reports delivered. -/
def deliverItemsWithRetry (outcome : Nat → Except String ServerResponse) : RetryTrace :=
  retryLoop outcome 1 retryAttempts

/-! ## EfiService.validateWebhookSignature (services/efiService.ts)

The HMAC computation is a parameter (it wraps node:crypto). The source
compares crypto.timingSafeEqual(Buffer.from(signature, "hex"),
Buffer.from(expectedSignature, "hex")): both strings are hex-decoded into
byte buffers (case-insensitively, truncating at the first non-hex pair, the
Buffer.from hex semantics), and timingSafeEqual THROWS a RangeError when
the two buffers have different lengths — that exception is raised outside
the handler's try/catch and surfaces as a 500 through asyncHandler and
errorHandler, not as a 401. An unconfigured secret (EFI_WEBHOOK_SECRET
defaulting to the empty string) skips validation and accepts every
request. -/

/-- Value of one hex digit, accepting both cases (Buffer.from "hex"). -/
def hexDigit? (c : Char) : Option Nat :=
  if '0' ≤ c ∧ c ≤ '9' then some (c.toNat - '0'.toNat)
  else if 'a' ≤ c ∧ c ≤ 'f' then some (c.toNat - 'a'.toNat + 10)
  else if 'A' ≤ c ∧ c ≤ 'F' then some (c.toNat - 'A'.toNat + 10)
  else none

/-- Hex pairs to bytes, stopping at the first incomplete or invalid pair
(Buffer.from(string, "hex") truncates there rather than throwing). -/
def hexDecodeAux : List Char → List Nat
  | c₁ :: c₂ :: rest =>
    match hexDigit? c₁, hexDigit? c₂ with
    | some hi, some lo => (hi * 16 + lo) :: hexDecodeAux rest
    | _, _ => []
  | _ => []

/-- The byte buffer Buffer.from(s, "hex") yields. -/
def hexDecode (s : String) : List Nat :=
  hexDecodeAux s.data

/-- EfiService.validateWebhookSignature. Except.error models the RangeError
thrown by crypto.timingSafeEqual when the hex-decoded buffers differ in
length; Except.ok carries the comparison result otherwise. -/
def validateWebhookSignature (secret : String) (hmac : String → String → String)
    (payload signature : String) : Except Unit Bool :=
  if secret = "" then
    Except.ok true
  else
    let expectedSignature := hmac secret payload
    let sigBytes := hexDecode signature
    let expectedBytes := hexDecode expectedSignature
    if sigBytes.length = expectedBytes.length then
      Except.ok (sigBytes == expectedBytes)
    else
      Except.error ()

/-! ## Fulfillment engine (webhookController's processApprovedPayment) -/

/-- The fault environment of one processApprovedPayment run, indexed by the
line-item position:
  - deliver i: outcome of the fivemService boundary call for item i
    (an Except.error is the transport error caught inside deliverItems);
  - createGrantFails i: storage.createGrant for item i throws — this call
    sits OUTSIDE the per-item try/catch, so the exception escapes to the
    outer catch of processApprovedPayment;
  - updateGrantFails i: the storage.updateGrant after a successful delivery
    of item i throws — this call sits INSIDE the per-item try/catch and is
    caught and logged per item. -/
structure FulfillEnv where
  deliver : Nat → Except String ServerResponse
  createGrantFails : Nat → Bool
  updateGrantFails : Nat → Bool

/-- A fault-free environment with a fixed boundary outcome for each item. -/
def benignEnv (outcome : Nat → Except String ServerResponse) : FulfillEnv :=
  { deliver := outcome, createGrantFails := fun _ => false, updateGrantFails := fun _ => false }

/-- The body of one iteration of the grant-creation loop of
processApprovedPayment for line item p at position i: create the pending
Grant, then attempt immediate delivery when the user has a linked
fivemIdentifier; the delivery attempt and the following grant-status update
are wrapped in a per-item try/catch, so an updateGrant exception leaves the
state as it was after the insert. -/
def grantStep (env : FulfillEnv) (now : Nat) (txId : String) (user : User)
    (p : LineItem) (i : Nat) (s : Store) : Store :=
  let idState := freshId s
  let grantId := idState.1
  let s₁ := createGrant idState.2
    { id := grantId
      transactionId := some txId
      userId := user.id
      grantType := p.productType
      grantData :=
        { productId := some p.productId
          productName := some p.name
          quantity := some p.quantity
          price := some p.price
          payload := some p.data }
      status := GrantStatus.pending
      grantedAt := now }
  match user.fivemIdentifier with
  | some _ =>
      -- try { deliverItems; if delivered then updateGrant } catch { log }
      let r := deliverItems (env.deliver i)
      if r.delivered then
        if env.updateGrantFails i then
          s₁  -- exception caught and logged for this item only
        else
          updateGrant s₁ grantId (fun g => { g with status := GrantStatus.delivered })
      else
        s₁
  | none => s₁

/-- First loop of processApprovedPayment: one grantStep per line item.
A createGrant exception is not caught by the per-item try/catch and aborts
the loop (Except.error carries the state at the point of the exception). -/
def grantLoop (env : FulfillEnv) (now : Nat) (txId : String) (user : User) :
    List LineItem → Nat → Store → Except Store Store
  | [], _, s => Except.ok s
  | p :: rest, i, s =>
    if env.createGrantFails i then
      Except.error s
    else
      grantLoop env now txId user rest (i + 1) (grantStep env now txId user p i s)

/-- Stock decrement of one iteration of the second loop of
processApprovedPayment. The line-item snapshot has no stock field, so the JS
guard product.stock !== -1 compares undefined and is always true — the
decrement is then gated on the current catalog record having stock > 0.
Note also that coins additions in effectsStep read user.coins from the
snapshot fetched at the start of processApprovedPayment. -/
def stockStep (p : LineItem) (s : Store) : Store :=
  match getProduct s p.productId with
  | some currentProduct =>
      if currentProduct.stock > 0 then
        updateProduct s p.productId
          (fun q => { q with stock := max 0 (q.stock - Int.ofNat p.quantity) })
      else
        s
  | none => s

/-- The account-effect part of one iteration of the second loop of
processApprovedPayment for line item p, followed by the stock decrement. -/
def effectsStep (now : Nat) (userId : Nat) (user : User) (p : LineItem)
    (s : Store) : Store :=
  let s₁ :=
    if p.productType == "coins" then
      let coinAmount : Int := Int.ofNat (jsOrNat p.data.amount (p.quantity * 100))
      updateUser s userId (fun u => { u with coins := user.coins + coinAmount }) now
    else
      s
  let s₂ :=
    if p.productType == "vip" then
      let vipLevel := jsOrStr p.data.level "bronze"
      let vipDuration := jsOrNat p.data.duration 30
      let vipExpires := now + vipDuration * 24 * 60 * 60 * 1000
      updateUser s₁ userId
        (fun u => { u with vipLevel := vipLevel, vipExpires := some vipExpires }) now
    else
      s₁
  stockStep p s₂

/-- Second loop of processApprovedPayment: one effectsStep per line item. -/
def effectsLoop (now : Nat) (userId : Nat) (user : User) :
    List LineItem → Store → Store
  | [], s => s
  | p :: rest, s => effectsLoop now userId user rest (effectsStep now userId user p s)

/-- processApprovedPayment(transactionId, userId): fetch the transaction and
the user, create grants with immediate delivery attempts, apply account
effects and stock decrements, and log. The whole body sits in a try/catch
whose handler sets the transaction status to failed; in the model the only
exception that can reach it is a createGrant failure from grantLoop. -/
def processApprovedPayment (env : FulfillEnv) (now : Nat)
    (transactionId : String) (userId : Nat) (s : Store) : Store :=
  match getTransaction s transactionId, getUser s userId with
  | some transaction, some user =>
      let products := transaction.products
      match grantLoop env now transactionId user products 0 s with
      | Except.error sErr =>
          -- outer catch: update transaction status to indicate processing error
          updateTransaction sErr transactionId
            (fun t => { t with status := TxStatus.failed }) now
      | Except.ok s₁ =>
          let s₂ := effectsLoop now userId user products s₁
          logActivity s₂ (some userId) "payment_processed"
  | _, _ => s  -- transaction or user not found: log and return

/-- processFailedPayment: log-only failure path. -/
def processFailedPayment (s : Store) (userId : Nat) : Store :=
  logActivity s (some userId) "payment_failed"

/-! ## Webhook reconciler (webhookController) -/

/-- HTTP outcomes of the webhook handlers that the claims observe.
serverError is the handler's own catch (500 "Webhook processing failed");
internalError is a 500 produced by the express errorHandler for an
exception thrown outside the handler's try/catch (asyncHandler forwards it,
and errorHandler defaults to status 500 for errors without a statusCode,
such as the RangeError of crypto.timingSafeEqual). -/
inductive HttpResponse where
  | ok (transactionId : String)
  | unauthorized
  | badRequest
  | notFound
  | serverError
  | internalError
deriving DecidableEq, Repr

/-- The normalized pair produced by efiService.parseWebhookData; the status
mapping only ever yields approved, cancelled or pending. -/
structure EfiWebhookData where
  paymentId : String
  status : TxStatus
deriving DecidableEq, Repr

/-- efiService.parseWebhookData's status mapping over the first pix entry:
CONCLUIDA becomes approved, REMOVIDA_PELO_USUARIO_RECEBEDOR becomes
cancelled, anything else becomes pending. -/
def parseEfiStatus (pixStatus : String) : TxStatus :=
  if pixStatus = "CONCLUIDA" then TxStatus.approved
  else if pixStatus = "REMOVIDA_PELO_USUARIO_RECEBEDOR" then TxStatus.cancelled
  else TxStatus.pending

/-- webhookController.handleEfiBankWebhook. parse is the composition
JSON.parse followed by efiService.parseWebhookData; a parse exception is
caught by the handler's try/catch and answered with a 500, after the
signature check and before any storage access. -/
def handleEfiBankWebhook (secret : String) (hmac : String → String → String)
    (parse : String → Option EfiWebhookData) (env : FulfillEnv) (now : Nat)
    (signature payload : String) (s : Store) : HttpResponse × Store :=
  match validateWebhookSignature secret hmac payload signature with
  | Except.error _ => (HttpResponse.internalError, s)
  | Except.ok false => (HttpResponse.unauthorized, s)
  | Except.ok true =>
    match parse payload with
    | none => (HttpResponse.serverError, s)
    | some webhookData =>
      let transactions := getAllTransactions s 1000 0
      match transactions.find? (fun t => t.paymentId == some webhookData.paymentId) with
      | none => (HttpResponse.notFound, s)
      | some transaction =>
        let s₁ := updateTransaction s transaction.id
          (fun t => { t with status := webhookData.status }) now
        let s₂ := logActivity s₁ (some transaction.userId) "webhook_received"
        let s₃ :=
          if webhookData.status = TxStatus.approved ∧ transaction.status ≠ TxStatus.approved then
            processApprovedPayment env now transaction.id transaction.userId s₂
          else if webhookData.status = TxStatus.cancelled ∨ webhookData.status = TxStatus.failed then
            processFailedPayment s₂ transaction.userId
          else
            s₂
        (HttpResponse.ok transaction.id, s₃)

/-- The parsed body of a generic payment webhook
({ transactionId, status, paymentId? }); absent-or-falsy fields are none. -/
structure GenericWebhookData where
  transactionId : Option String := none
  status : Option TxStatus := none
  paymentId : Option String := none
deriving DecidableEq, Repr

/-- The part of handleGenericPaymentWebhook after the signature gate:
parse, validate required fields, resolve the transaction, update it
unconditionally, log, and run the approved/failed processing. -/
def genericWebhookBody (parse : String → Option GenericWebhookData)
    (env : FulfillEnv) (now : Nat) (payload : String) (s : Store) :
    HttpResponse × Store :=
  match parse payload with
  | none => (HttpResponse.serverError, s)
  | some webhookData =>
    match webhookData.transactionId, webhookData.status with
    | some transactionId, some status =>
      match getTransaction s transactionId with
      | none => (HttpResponse.notFound, s)
      | some transaction =>
        let s₁ := updateTransaction s transactionId
          (fun t =>
            let t₁ := { t with status := status }
            match webhookData.paymentId with
            | some pid => { t₁ with paymentId := some pid }
            | none => t₁) now
        let s₂ := logActivity s₁ (some transaction.userId) "webhook_received"
        let s₃ :=
          if status = TxStatus.approved ∧ transaction.status ≠ TxStatus.approved then
            processApprovedPayment env now transactionId transaction.userId s₂
          else if status = TxStatus.cancelled ∨ status = TxStatus.failed then
            processFailedPayment s₂ transaction.userId
          else
            s₂
        (HttpResponse.ok transactionId, s₃)
    | _, _ => (HttpResponse.badRequest, s)

/-- webhookController.handleGenericPaymentWebhook. The signature is verified
only when both the WEBHOOK_SECRET environment variable is set (truthy) and
the x-webhook-signature header is present (truthy); otherwise the check is
skipped entirely and the body runs unauthenticated. The check itself is
CryptoUtils.verifyWebhookSignature: timingSafeEqual over the utf8 buffers
of the signature and the hex digest — it throws (500 via errorHandler, the
call being outside the try/catch) when the byte lengths differ, and for
equal lengths utf8-buffer equality coincides with string equality. -/
def handleGenericPaymentWebhook (webhookSecret : Option String)
    (hmac : String → String → String) (parse : String → Option GenericWebhookData)
    (env : FulfillEnv) (now : Nat) (signature : Option String) (payload : String)
    (s : Store) : HttpResponse × Store :=
  match webhookSecret, signature with
  | some secret, some sig =>
      if sig.utf8ByteSize = (hmac secret payload).utf8ByteSize then
        if hmac secret payload == sig then
          genericWebhookBody parse env now payload s
        else
          (HttpResponse.unauthorized, s)
      else
        (HttpResponse.internalError, s)
  | _, _ => genericWebhookBody parse env now payload s

/-! ## adminController.grantItemsToUser (the admin-issued grant path) -/

/-- adminController.grantItemsToUser: create a pending grant, attempt
immediate delivery when the user is linked (outcome is the boundary result,
with Except.error the transport error swallowed inside deliverItems), then
apply the coins or vip account effect unconditionally. Returns the updated
store; the user-not-found case answers 404 without touching the store. -/
def grantItemsToUser (outcome : Except String ServerResponse) (now : Nat)
    (adminId userId : Nat) (grantType : String) (grantData : GrantData)
    (s : Store) : Store :=
  match getUser s userId with
  | none => s
  | some user =>
    let idState := freshId s
    let grantId := idState.1
    let s₁ := createGrant idState.2
      { id := grantId
        userId := userId
        grantType := grantType
        grantData := grantData
        status := GrantStatus.pending
        grantedBy := some adminId
        grantedAt := now }
    let s₂ :=
      match user.fivemIdentifier with
      | some _ =>
          let r := deliverItems outcome
          if r.delivered then
            updateGrant s₁ grantId (fun g => { g with status := GrantStatus.delivered })
          else
            s₁
      | none => s₁
    let s₃ :=
      if grantType == "coins" then
        let coinAmount : Int := Int.ofNat (jsOrNat grantData.amount 0)
        updateUser s₂ userId (fun u => { u with coins := user.coins + coinAmount }) now
      else
        s₂
    let s₄ :=
      if grantType == "vip" then
        let vipLevel := jsOrStr grantData.level "bronze"
        let vipDuration := jsOrNat grantData.duration 30
        let vipExpires := now + vipDuration * 24 * 60 * 60 * 1000
        updateUser s₃ userId
          (fun u => { u with vipLevel := vipLevel, vipExpires := some vipExpires }) now
      else
        s₃
    logActivity s₄ (some adminId) "admin_grant_created"

/-! ## serverController.processPendingDeliveries (bulk queue processor) -/

/-- The aggregated counters of a bulk run. -/
structure BulkResults where
  processed : Nat
  delivered : Nat
  failed : Nat
  skipped : Nat
deriving DecidableEq, Repr

/-- The for-loop of processPendingDeliveries over the pending grants;
outcome i is the boundary result of the single delivery attempt of the
i-th iteration (there is no in-call retry loop). Each iteration increments
processed, then either skips (user missing or no fivemIdentifier), or
attempts one delivery and counts delivered or failed. -/
def bulkLoop (outcome : Nat → Except String ServerResponse) :
    List Grant → Nat → BulkResults → Store → BulkResults × Store
  | [], _, acc, s => (acc, s)
  | g :: rest, i, acc, s =>
    let acc₁ := { acc with processed := acc.processed + 1 }
    match getUser s g.userId with
    | none =>
        bulkLoop outcome rest (i + 1) { acc₁ with skipped := acc₁.skipped + 1 } s
    | some user =>
      match user.fivemIdentifier with
      | none =>
          bulkLoop outcome rest (i + 1) { acc₁ with skipped := acc₁.skipped + 1 } s
      | some _ =>
          let r := deliverItems (outcome i)
          if r.delivered then
            let s₁ := updateGrant s g.id (fun q => { q with status := GrantStatus.delivered })
            bulkLoop outcome rest (i + 1) { acc₁ with delivered := acc₁.delivered + 1 } s₁
          else
            bulkLoop outcome rest (i + 1) { acc₁ with failed := acc₁.failed + 1 } s

/-- serverController.processPendingDeliveries: iterate every grant with
status pending exactly once, then log the bulk run. -/
def processPendingDeliveries (outcome : Nat → Except String ServerResponse)
    (adminId : Nat) (s : Store) : BulkResults × Store :=
  let pendingGrants := getPendingGrants s
  let run := bulkLoop outcome pendingGrants 0
    { processed := 0, delivered := 0, failed := 0, skipped := 0 } s
  (run.1, logActivity run.2 (some adminId) "bulk_delivery_processed")

/-- True when the bulk loop skips this grant: its user record is absent or
has no linked fivemIdentifier. -/
def noLinkedIdentity (s : Store) (g : Grant) : Bool :=
  match getUser s g.userId with
  | none => true
  | some user => user.fivemIdentifier.isNone

/-! ## paymentController.createPayment (checkout) -/

/-- One requested item of the checkout body. -/
structure OrderItem where
  productId : Nat
  quantity : Nat
deriving DecidableEq, Repr

/-- The 4xx rejections of the checkout validation loop. -/
inductive PayError where
  | productNotFound (productId : Nat)
  | productUnavailable
  | insufficientStock
deriving DecidableEq, Repr

/-- The responses of createPayment the claims observe. -/
inductive PayResponse where
  | created (transactionId : String)
  | rejected (e : PayError)
  | invalidAmount
  | pixFailed
deriving DecidableEq, Repr

/-- The data returned by efiService.createPixPayment on success. -/
structure PixInfo where
  paymentId : String
  qrCode : String
  expiresAt : Nat
deriving DecidableEq, Repr

/-- The validation loop of createPayment: resolve each product, reject on
missing/inactive/understocked, accumulate the line-item snapshot and the
running total (totalAmount += price * quantity). -/
def buildCart (s : Store) : List OrderItem → List LineItem → ℚ →
    Except PayError (List LineItem × ℚ)
  | [], acc, total => Except.ok (acc.reverse, total)
  | item :: rest, acc, total =>
    match getProduct s item.productId with
    | none => Except.error (PayError.productNotFound item.productId)
    | some product =>
      if product.active = false then
        Except.error PayError.productUnavailable
      else if product.stock ≠ -1 ∧ product.stock < Int.ofNat item.quantity then
        Except.error PayError.insufficientStock
      else
        let itemTotal := product.price * item.quantity
        buildCart s rest
          ({ productId := product.id
             code := product.code
             name := product.name
             price := product.price
             quantity := item.quantity
             subtotal := itemTotal
             productType := product.productType
             data := product.data } :: acc)
          (total + itemTotal)

/-- paymentController.createPayment: validate the items, create the pending
transaction with the snapshot and the summed amount, then create the PIX
charge (pix is the provider outcome); on provider failure the catch sets
the transaction status to failed and answers 500. Cart clearing is not
modelled (carts are outside the claims). -/
def createPayment (pix : Except String PixInfo) (now : Nat) (userId : Nat)
    (items : List OrderItem) (s : Store) : PayResponse × Store :=
  match buildCart s items [] 0 with
  | Except.error e => (PayResponse.rejected e, s)
  | Except.ok (cartProducts, totalAmount) =>
    if totalAmount ≤ 0 then
      (PayResponse.invalidAmount, s)
    else
      let idState := freshId s
      let transactionId := idState.1
      let s₁ := createTransaction idState.2
        { id := transactionId
          userId := userId
          amount := totalAmount
          status := TxStatus.pending
          products := cartProducts
          expiresAt := some (now + 15 * 60 * 1000)
          createdAt := now
          updatedAt := now }
      match pix with
      | Except.error _ =>
          (PayResponse.pixFailed,
            updateTransaction s₁ transactionId
              (fun t => { t with status := TxStatus.failed }) now)
      | Except.ok info =>
          let s₂ := updateTransaction s₁ transactionId
            (fun t => { t with
              paymentId := some info.paymentId
              qrCode := some info.qrCode
              expiresAt := some info.expiresAt }) now
          (PayResponse.created transactionId,
            logActivity s₂ (some userId) "payment_created")

/-! ## Basic lemmas about the storage operations -/

@[simp]
theorem logActivity_users (s : Store) (uid : Option Nat) (a : String) :
    (logActivity s uid a).users = s.users := rfl

@[simp]
theorem logActivity_transactions (s : Store) (uid : Option Nat) (a : String) :
    (logActivity s uid a).transactions = s.transactions := rfl

@[simp]
theorem logActivity_grants (s : Store) (uid : Option Nat) (a : String) :
    (logActivity s uid a).grants = s.grants := rfl

@[simp]
theorem logActivity_products (s : Store) (uid : Option Nat) (a : String) :
    (logActivity s uid a).products = s.products := rfl

@[simp]
theorem updateTransaction_users (s : Store) (id : String) (f : Transaction → Transaction)
    (now : Nat) : (updateTransaction s id f now).users = s.users := rfl

@[simp]
theorem updateTransaction_grants (s : Store) (id : String) (f : Transaction → Transaction)
    (now : Nat) : (updateTransaction s id f now).grants = s.grants := rfl

@[simp]
theorem updateTransaction_products (s : Store) (id : String) (f : Transaction → Transaction)
    (now : Nat) : (updateTransaction s id f now).products = s.products := rfl

@[simp]
theorem updateUser_transactions (s : Store) (id : Nat) (f : User → User) (now : Nat) :
    (updateUser s id f now).transactions = s.transactions := rfl

@[simp]
theorem updateUser_grants (s : Store) (id : Nat) (f : User → User) (now : Nat) :
    (updateUser s id f now).grants = s.grants := rfl

@[simp]
theorem updateProduct_transactions (s : Store) (id : Nat) (f : Product → Product) :
    (updateProduct s id f).transactions = s.transactions := rfl

@[simp]
theorem updateProduct_users (s : Store) (id : Nat) (f : Product → Product) :
    (updateProduct s id f).users = s.users := rfl

@[simp]
theorem updateProduct_grants (s : Store) (id : Nat) (f : Product → Product) :
    (updateProduct s id f).grants = s.grants := rfl

@[simp]
theorem updateGrant_users (s : Store) (id : String) (f : Grant → Grant) :
    (updateGrant s id f).users = s.users := rfl

@[simp]
theorem updateGrant_transactions (s : Store) (id : String) (f : Grant → Grant) :
    (updateGrant s id f).transactions = s.transactions := rfl

@[simp]
theorem updateGrant_products (s : Store) (id : String) (f : Grant → Grant) :
    (updateGrant s id f).products = s.products := rfl

@[simp]
theorem updateGrant_grants_length (s : Store) (id : String) (f : Grant → Grant) :
    (updateGrant s id f).grants.length = s.grants.length := by
  simp [updateGrant]

@[simp]
theorem createGrant_users (s : Store) (g : Grant) : (createGrant s g).users = s.users := rfl

@[simp]
theorem createGrant_transactions (s : Store) (g : Grant) :
    (createGrant s g).transactions = s.transactions := rfl

@[simp]
theorem createGrant_products (s : Store) (g : Grant) :
    (createGrant s g).products = s.products := rfl

@[simp]
theorem createGrant_grants_length (s : Store) (g : Grant) :
    (createGrant s g).grants.length = s.grants.length + 1 := by
  simp [createGrant]

@[simp]
theorem freshId_users (s : Store) : (freshId s).2.users = s.users := rfl

@[simp]
theorem freshId_transactions (s : Store) : (freshId s).2.transactions = s.transactions := rfl

@[simp]
theorem freshId_products (s : Store) : (freshId s).2.products = s.products := rfl

@[simp]
theorem freshId_grants (s : Store) : (freshId s).2.grants = s.grants := rfl

/-- Generic single-key update/lookup commutation: updating every record whose
key matches and then looking the key up finds the updated first match,
provided the update preserves the key. -/
theorem find?_map_keyed {α κ : Type} [BEq κ] (l : List α) (k : κ) (key : α → κ)
    (g : α → α) (hg : ∀ x, key (g x) = key x) :
    (l.map (fun x => if key x == k then g x else x)).find? (fun x => key x == k)
      = (l.find? (fun x => key x == k)).map g := by
  induction l with
  | nil => rfl
  | cons x l ih =>
    by_cases h : (key x == k) = true
    · simp [List.find?_cons, h, hg]
    · rw [List.map_cons, if_neg h, List.find?_cons, List.find?_cons]
      rw [Bool.not_eq_true] at h
      simp [h, ih]

/-- Looking up a user after updateUser yields the updated record (the update
functions of the source never change the primary key). -/
theorem getUser_updateUser (s : Store) (id : Nat) (f : User → User) (now : Nat)
    (hf : ∀ u, (f u).id = u.id) :
    getUser (updateUser s id f now) id
      = (getUser s id).map (fun u => { f u with updatedAt := now }) := by
  unfold getUser updateUser
  exact find?_map_keyed s.users id User.id _ (fun u => hf u)

/-- Looking up a transaction after updateTransaction yields the updated record. -/
theorem getTransaction_updateTransaction (s : Store) (id : String)
    (f : Transaction → Transaction) (now : Nat) (hf : ∀ t, (f t).id = t.id) :
    getTransaction (updateTransaction s id f now) id
      = (getTransaction s id).map (fun t => { f t with updatedAt := now }) := by
  unfold getTransaction updateTransaction
  exact find?_map_keyed s.transactions id Transaction.id _ (fun t => hf t)

/-- getUser only reads the user list. -/
theorem getUser_congr {s₁ s₂ : Store} (h : s₁.users = s₂.users) (id : Nat) :
    getUser s₁ id = getUser s₂ id := by
  unfold getUser
  rw [h]

/-- getTransaction only reads the transaction list. -/
theorem getTransaction_congr {s₁ s₂ : Store} (h : s₁.transactions = s₂.transactions)
    (id : String) : getTransaction s₁ id = getTransaction s₂ id := by
  unfold getTransaction
  rw [h]

@[simp]
theorem getTransaction_logActivity (s : Store) (uid : Option Nat) (a : String)
    (id : String) : getTransaction (logActivity s uid a) id = getTransaction s id := rfl

/-- Every record of a storage page comes from the transaction list. -/
theorem mem_of_mem_getAllTransactions {s : Store} {t : Transaction}
    {limit offset : Nat} (h : t ∈ getAllTransactions s limit offset) :
    t ∈ s.transactions := by
  unfold getAllTransactions at h
  exact List.mem_of_mem_drop (List.take_subset _ _ h)

/-! ## Lemmas about the fulfillment loops -/

theorem grantStep_users (env : FulfillEnv) (now : Nat) (txId : String) (user : User)
    (p : LineItem) (i : Nat) (s : Store) :
    (grantStep env now txId user p i s).users = s.users := by
  unfold grantStep
  cases user.fivemIdentifier with
  | none => simp
  | some ident =>
      by_cases hd : (deliverItems (env.deliver i)).delivered <;>
        by_cases hu : env.updateGrantFails i <;> simp [hd, hu]

theorem grantStep_transactions (env : FulfillEnv) (now : Nat) (txId : String)
    (user : User) (p : LineItem) (i : Nat) (s : Store) :
    (grantStep env now txId user p i s).transactions = s.transactions := by
  unfold grantStep
  cases user.fivemIdentifier with
  | none => simp
  | some ident =>
      by_cases hd : (deliverItems (env.deliver i)).delivered <;>
        by_cases hu : env.updateGrantFails i <;> simp [hd, hu]

theorem grantStep_products (env : FulfillEnv) (now : Nat) (txId : String)
    (user : User) (p : LineItem) (i : Nat) (s : Store) :
    (grantStep env now txId user p i s).products = s.products := by
  unfold grantStep
  cases user.fivemIdentifier with
  | none => simp
  | some ident =>
      by_cases hd : (deliverItems (env.deliver i)).delivered <;>
        by_cases hu : env.updateGrantFails i <;> simp [hd, hu]

theorem grantStep_grants_length (env : FulfillEnv) (now : Nat) (txId : String)
    (user : User) (p : LineItem) (i : Nat) (s : Store) :
    (grantStep env now txId user p i s).grants.length = s.grants.length + 1 := by
  unfold grantStep
  cases user.fivemIdentifier with
  | none => simp
  | some ident =>
      by_cases hd : (deliverItems (env.deliver i)).delivered <;>
        by_cases hu : env.updateGrantFails i <;> simp [hd, hu]

/-- Under any environment, a successful grant loop run preserves users,
transactions and products, and inserts exactly one grant per line item. -/
theorem grantLoop_ok_spec (env : FulfillEnv) (now : Nat) (txId : String) (user : User) :
    ∀ (items : List LineItem) (i : Nat) (s s' : Store),
      grantLoop env now txId user items i s = Except.ok s' →
      s'.users = s.users ∧ s'.transactions = s.transactions ∧
      s'.products = s.products ∧ s'.grants.length = s.grants.length + items.length := by
  intro items
  induction items with
  | nil =>
      intro i s s' h
      simp only [grantLoop] at h
      cases h
      simp
  | cons p rest ih =>
      intro i s s' h
      simp only [grantLoop] at h
      by_cases hf : env.createGrantFails i
      · rw [if_pos hf] at h
        cases h
      · rw [if_neg hf] at h
        obtain ⟨h₁, h₂, h₃, h₄⟩ := ih (i + 1) _ s' h
        refine ⟨?_, ?_, ?_, ?_⟩
        · rw [h₁, grantStep_users]
        · rw [h₂, grantStep_transactions]
        · rw [h₃, grantStep_products]
        · rw [h₄, grantStep_grants_length]
          simp [List.length_cons]
          omega

/-- When no createGrant call fails, the grant loop completes. -/
theorem grantLoop_benign (env : FulfillEnv)
    (hb : ∀ j, env.createGrantFails j = false) (now : Nat) (txId : String)
    (user : User) :
    ∀ (items : List LineItem) (i : Nat) (s : Store),
      ∃ s', grantLoop env now txId user items i s = Except.ok s' := by
  intro items
  induction items with
  | nil => intro i s; exact ⟨s, rfl⟩
  | cons p rest ih =>
      intro i s
      simp only [grantLoop, hb i, if_false]
      exact ih (i + 1) _

theorem stockStep_transactions (p : LineItem) (s : Store) :
    (stockStep p s).transactions = s.transactions := by
  unfold stockStep
  cases getProduct s p.productId with
  | none => rfl
  | some currentProduct =>
      dsimp only
      split <;> simp

theorem stockStep_grants (p : LineItem) (s : Store) :
    (stockStep p s).grants = s.grants := by
  unfold stockStep
  cases getProduct s p.productId with
  | none => rfl
  | some currentProduct =>
      dsimp only
      split <;> simp

theorem stockStep_users (p : LineItem) (s : Store) :
    (stockStep p s).users = s.users := by
  unfold stockStep
  cases getProduct s p.productId with
  | none => rfl
  | some currentProduct =>
      dsimp only
      split <;> simp

theorem effectsStep_transactions (now : Nat) (userId : Nat) (user : User)
    (p : LineItem) (s : Store) :
    (effectsStep now userId user p s).transactions = s.transactions := by
  unfold effectsStep
  rw [stockStep_transactions]
  repeat' split
  all_goals simp

theorem effectsStep_grants (now : Nat) (userId : Nat) (user : User)
    (p : LineItem) (s : Store) :
    (effectsStep now userId user p s).grants = s.grants := by
  unfold effectsStep
  rw [stockStep_grants]
  repeat' split
  all_goals simp

theorem effectsLoop_transactions (now : Nat) (userId : Nat) (user : User) :
    ∀ (items : List LineItem) (s : Store),
      (effectsLoop now userId user items s).transactions = s.transactions := by
  intro items
  induction items with
  | nil => intro s; rfl
  | cons p rest ih =>
      intro s
      simp only [effectsLoop]
      rw [ih, effectsStep_transactions]

theorem effectsLoop_grants (now : Nat) (userId : Nat) (user : User) :
    ∀ (items : List LineItem) (s : Store),
      (effectsLoop now userId user items s).grants = s.grants := by
  intro items
  induction items with
  | nil => intro s; rfl
  | cons p rest ih =>
      intro s
      simp only [effectsLoop]
      rw [ih, effectsStep_grants]

/-- Under an environment in which no createGrant call fails, fulfillment
never touches the transaction list (in particular it never rewrites any
transaction status). -/
theorem processApprovedPayment_transactions (env : FulfillEnv)
    (hb : ∀ j, env.createGrantFails j = false) (now : Nat)
    (transactionId : String) (userId : Nat) (s : Store) :
    (processApprovedPayment env now transactionId userId s).transactions
      = s.transactions := by
  unfold processApprovedPayment
  cases hgt : getTransaction s transactionId with
  | none => rfl
  | some tx =>
    cases hgu : getUser s userId with
    | none => rfl
    | some user =>
      obtain ⟨s', hs'⟩ := grantLoop_benign env hb now transactionId user tx.products 0 s
      dsimp only
      rw [hs']
      obtain ⟨-, h₂, -, -⟩ := grantLoop_ok_spec env now transactionId user tx.products 0 s s' hs'
      simp [effectsLoop_transactions, h₂]

/-! ## C6, C7: the delivery retry protocol -/

/-- A boundary that fails on the first two calls and succeeds on the third. -/
def outcomeFailTwice : Nat → Except String ServerResponse :=
  fun i =>
    if i ≤ 2 then Except.ok { success := false }
    else Except.ok { success := true }

/-- C6: deliverItemsWithRetry performs at most 3 synchronous attempts with a
fixed 5000 ms inter-attempt delay (one fewer delay than attempts), returns
with the result of attempt k as soon as attempt k is the first to succeed,
and against a boundary that fails twice then succeeds on the 3rd call it
returns delivered = true after exactly 3 attempts and 2 delays. -/
theorem deliverItemsWithRetry_spec :
    (∀ outcome, (deliverItemsWithRetry outcome).attempts ≤ retryAttempts) ∧
    (retryAttempts = 3 ∧ retryDelay = 5000) ∧
    (∀ outcome, (deliverItemsWithRetry outcome).delays + 1
        = (deliverItemsWithRetry outcome).attempts) ∧
    (∀ outcome k, 1 ≤ k → k ≤ retryAttempts →
        (∀ j, 1 ≤ j → j < k → (deliverItems (outcome j)).delivered = false) →
        (deliverItems (outcome k)).delivered = true →
        deliverItemsWithRetry outcome
          = { result := deliverItems (outcome k), attempts := k, delays := k - 1 }) ∧
    ((deliverItemsWithRetry outcomeFailTwice).result.delivered = true ∧
      (deliverItemsWithRetry outcomeFailTwice).attempts = 3 ∧
      (deliverItemsWithRetry outcomeFailTwice).delays = 2) := by
  refine ⟨?_, ⟨rfl, rfl⟩, ?_, ?_, by decide⟩
  · intro outcome
    by_cases h1 : (deliverItems (outcome 1)).delivered <;>
      by_cases h2 : (deliverItems (outcome 2)).delivered <;>
        by_cases h3 : (deliverItems (outcome 3)).delivered <;>
          simp [deliverItemsWithRetry, retryAttempts, retryLoop, h1, h2, h3]
  · intro outcome
    by_cases h1 : (deliverItems (outcome 1)).delivered <;>
      by_cases h2 : (deliverItems (outcome 2)).delivered <;>
        by_cases h3 : (deliverItems (outcome 3)).delivered <;>
          simp [deliverItemsWithRetry, retryAttempts, retryLoop, h1, h2, h3]
  · intro outcome k hk1 hk3 hbefore hk
    rw [retryAttempts] at hk3
    interval_cases k
    · simp [deliverItemsWithRetry, retryAttempts, retryLoop, hk]
    · have h1 : (deliverItems (outcome 1)).delivered = false := hbefore 1 (by omega) (by omega)
      simp [deliverItemsWithRetry, retryAttempts, retryLoop, h1, hk]
    · have h1 : (deliverItems (outcome 1)).delivered = false := hbefore 1 (by omega) (by omega)
      have h2 : (deliverItems (outcome 2)).delivered = false := hbefore 2 (by omega) (by omega)
      simp [deliverItemsWithRetry, retryAttempts, retryLoop, h1, h2, hk]

/-- Witness for C6: the concrete fails-twice boundary instantiates the
first-success clause at k = 3. -/
theorem deliverItemsWithRetry_spec_witness :
    deliverItemsWithRetry outcomeFailTwice
      = { result := deliverItems (outcomeFailTwice 3), attempts := 3, delays := 2 } :=
  deliverItemsWithRetry_spec.2.2.2.1 outcomeFailTwice 3 (by decide) (by decide)
    (fun j hj1 hj2 => by interval_cases j <;> decide) (by decide)

/-- C7: deliverItems never throws — a transport error (the Except.error
outcome) and a non-success response both yield delivered = false with a
retry hint, and the hint for an explicit recipient-offline response (300 s)
is strictly longer than the transient/unknown hint (60 s). -/
theorem deliverItems_failure_classification :
    (∀ e : String, (deliverItems (Except.error e)).delivered = false ∧
        (deliverItems (Except.error e)).retryAfter = some 60) ∧
    (∀ r : ServerResponse, r.success = false →
        (deliverItems (Except.ok r)).delivered = false ∧
        (deliverItems (Except.ok r)).retryAfter
          = some (if r.playerOnline == some false then 300 else 60)) ∧
    (∀ r : ServerResponse, r.success = false → r.playerOnline = some false →
        ∀ e : String, ∀ tOffline tTransient : Nat,
          (deliverItems (Except.ok r)).retryAfter = some tOffline →
          (deliverItems (Except.error e)).retryAfter = some tTransient →
          tTransient < tOffline) := by
  refine ⟨?_, ?_, ?_⟩
  · intro e
    simp [deliverItems]
  · intro r hr
    simp [deliverItems, hr]
  · intro r hr hoff e tOffline tTransient hOff hTr
    simp [deliverItems, hr, hoff] at hOff hTr
    omega

/-- Witness for C7: a concrete offline response and a concrete transport
error instantiate all three clauses. -/
theorem deliverItems_failure_classification_witness :
    ((deliverItems (Except.error "timeout")).delivered = false ∧
      (deliverItems (Except.error "timeout")).retryAfter = some 60) ∧
    ((deliverItems (Except.ok { success := false, playerOnline := some false })).delivered
        = false ∧
      (deliverItems (Except.ok { success := false, playerOnline := some false })).retryAfter
        = some (if ((some false : Option Bool) == some false) then 300 else 60)) ∧
    (60 : Nat) < 300 :=
  ⟨deliverItems_failure_classification.1 "timeout",
    deliverItems_failure_classification.2.1
      { success := false, playerOnline := some false } (by decide),
    deliverItems_failure_classification.2.2
      { success := false, playerOnline := some false } (by decide) (by decide)
      "timeout" 300 60 (by decide) (by decide)⟩

/-! ## C8: the bulk pending-queue processor -/

theorem noLinkedIdentity_congr {s₁ s₂ : Store} (h : s₁.users = s₂.users) (g : Grant) :
    noLinkedIdentity s₁ g = noLinkedIdentity s₂ g := by
  unfold noLinkedIdentity
  rw [getUser_congr h]

theorem bulkLoop_users (outcome : Nat → Except String ServerResponse) :
    ∀ (grants : List Grant) (i : Nat) (acc : BulkResults) (s : Store),
      (bulkLoop outcome grants i acc s).2.users = s.users := by
  intro grants
  induction grants with
  | nil => intro i acc s; rfl
  | cons g rest ih =>
      intro i acc s
      simp only [bulkLoop]
      cases getUser s g.userId with
      | none =>
          dsimp only
          rw [ih]
      | some user =>
        dsimp only
        cases user.fivemIdentifier with
        | none =>
            dsimp only
            rw [ih]
        | some ident =>
            dsimp only
            split
            · rw [ih]
              simp
            · rw [ih]

/-- Counter bookkeeping of the bulk loop: every grant is processed exactly
once, the skipped counter counts exactly the grants whose user has no
linked game identity, and each iteration adds one to exactly one of
delivered, failed, skipped. -/
theorem bulkLoop_counts (outcome : Nat → Except String ServerResponse) :
    ∀ (grants : List Grant) (i : Nat) (acc : BulkResults) (s : Store),
      (bulkLoop outcome grants i acc s).1.processed = acc.processed + grants.length ∧
      (bulkLoop outcome grants i acc s).1.skipped
        = acc.skipped + (grants.filter (noLinkedIdentity s)).length ∧
      (bulkLoop outcome grants i acc s).1.delivered
          + (bulkLoop outcome grants i acc s).1.failed
          + (bulkLoop outcome grants i acc s).1.skipped
        = acc.delivered + acc.failed + acc.skipped + grants.length := by
  intro grants
  induction grants with
  | nil => intro i acc s; simp [bulkLoop]
  | cons g rest ih =>
      intro i acc s
      simp only [bulkLoop]
      cases hgu : getUser s g.userId with
      | none =>
          have hskip : noLinkedIdentity s g = true := by
            simp [noLinkedIdentity, hgu]
          dsimp only
          obtain ⟨ih₁, ih₂, ih₃⟩ := ih (i + 1)
            { acc with processed := acc.processed + 1, skipped := acc.skipped + 1 } s
          refine ⟨?_, ?_, ?_⟩
          · rw [ih₁]
            simp [List.length_cons]
            omega
          · rw [ih₂]
            simp [List.filter_cons, hskip]
            omega
          · rw [ih₃]
            simp [List.length_cons]
            omega
      | some user =>
        dsimp only
        cases hfi : user.fivemIdentifier with
        | none =>
            have hskip : noLinkedIdentity s g = true := by
              simp [noLinkedIdentity, hgu, hfi]
            dsimp only
            obtain ⟨ih₁, ih₂, ih₃⟩ := ih (i + 1)
              { acc with processed := acc.processed + 1, skipped := acc.skipped + 1 } s
            refine ⟨?_, ?_, ?_⟩
            · rw [ih₁]
              simp [List.length_cons]
              omega
            · rw [ih₂]
              simp [List.filter_cons, hskip]
              omega
            · rw [ih₃]
              simp [List.length_cons]
              omega
        | some ident =>
            have hnoskip : noLinkedIdentity s g = false := by
              simp [noLinkedIdentity, hgu, hfi]
            dsimp only
            split
            · have husers :
                  (updateGrant s g.id
                    (fun q => { q with status := GrantStatus.delivered })).users = s.users := by
                simp
              have hfilter :
                  rest.filter (noLinkedIdentity (updateGrant s g.id
                      (fun q => { q with status := GrantStatus.delivered })))
                    = rest.filter (noLinkedIdentity s) :=
                List.filter_congr (fun x _ => noLinkedIdentity_congr husers x)
              obtain ⟨ih₁, ih₂, ih₃⟩ := ih (i + 1)
                { acc with processed := acc.processed + 1, delivered := acc.delivered + 1 }
                (updateGrant s g.id (fun q => { q with status := GrantStatus.delivered }))
              refine ⟨?_, ?_, ?_⟩
              · rw [ih₁]
                simp [List.length_cons]
                omega
              · rw [ih₂, hfilter]
                simp [List.filter_cons, hnoskip]
              · rw [ih₃]
                simp [List.length_cons]
                omega
            · obtain ⟨ih₁, ih₂, ih₃⟩ := ih (i + 1)
                { acc with processed := acc.processed + 1, failed := acc.failed + 1 } s
              refine ⟨?_, ?_, ?_⟩
              · rw [ih₁]
                simp [List.length_cons]
                omega
              · rw [ih₂]
                simp [List.filter_cons, hnoskip]
              · rw [ih₃]
                simp [List.length_cons]
                omega

/-- A linked user fixture (has a game identity). -/
def linkedUser (id : Nat) : User :=
  { id := id, fivemIdentifier := some "steam:abc" }

/-- An unlinked user fixture (no game identity). -/
def unlinkedUser (id : Nat) : User :=
  { id := id }

/-- A pending grant fixture owned by the given user. -/
def pendingGrantFor (gid : String) (uid : Nat) : Grant :=
  { id := gid, userId := uid, grantType := "item", grantData := {},
    status := GrantStatus.pending }

/-- Five pending grants; the users of the last two have no linked identity. -/
def bulkScenarioStore : Store :=
  { users := [linkedUser 1, linkedUser 2, linkedUser 3, unlinkedUser 4, unlinkedUser 5]
    products := []
    transactions := []
    grants := [pendingGrantFor "g1" 1, pendingGrantFor "g2" 2, pendingGrantFor "g3" 3,
               pendingGrantFor "g4" 4, pendingGrantFor "g5" 5]
    logs := [] }

/-- The boundary succeeds for the first two attempted deliveries and reports
the recipient offline on the third. -/
def bulkScenarioOutcome : Nat → Except String ServerResponse :=
  fun i =>
    if i == 2 then Except.ok { success := false, playerOnline := some false }
    else Except.ok { success := true }

/-- C8: processPendingDeliveries iterates every pending Grant exactly once
with a single delivery attempt each: processed equals the number of pending
grants, skipped counts exactly the pending grants whose user has no linked
game identity, delivered + failed + skipped = processed, and on the
5-pending-grants scenario with 2 unlinked users the counters are
processed 5, skipped 2, and delivered plus failed totalling 3. -/
theorem processPendingDeliveries_counts :
    (∀ outcome adminId s,
        (processPendingDeliveries outcome adminId s).1.processed
          = (getPendingGrants s).length) ∧
    (∀ outcome adminId s,
        (processPendingDeliveries outcome adminId s).1.skipped
          = ((getPendingGrants s).filter (noLinkedIdentity s)).length) ∧
    (∀ outcome adminId s,
        (processPendingDeliveries outcome adminId s).1.delivered
            + (processPendingDeliveries outcome adminId s).1.failed
            + (processPendingDeliveries outcome adminId s).1.skipped
          = (processPendingDeliveries outcome adminId s).1.processed) ∧
    (processPendingDeliveries bulkScenarioOutcome 9 bulkScenarioStore).1
      = { processed := 5, delivered := 2, failed := 1, skipped := 2 } := by
  refine ⟨?_, ?_, ?_, by decide⟩
  · intro outcome adminId s
    have h := (bulkLoop_counts outcome (getPendingGrants s) 0
      { processed := 0, delivered := 0, failed := 0, skipped := 0 } s).1
    simpa [processPendingDeliveries] using h
  · intro outcome adminId s
    have h := (bulkLoop_counts outcome (getPendingGrants s) 0
      { processed := 0, delivered := 0, failed := 0, skipped := 0 } s).2.1
    simpa [processPendingDeliveries] using h
  · intro outcome adminId s
    obtain ⟨h₁, -, h₃⟩ := bulkLoop_counts outcome (getPendingGrants s) 0
      { processed := 0, delivered := 0, failed := 0, skipped := 0 } s
    simp only [processPendingDeliveries] at *
    omega

/-! ## C1, C2, C3, C10: webhook reconciliation -/

/-- A coins line-item fixture (100 coins, 5 BRL). -/
def coinsItem : LineItem :=
  { productId := 10, code := "c100", name := "Coin Pack", price := 5, quantity := 1,
    subtotal := 5, productType := "coins", data := { amount := some 100 } }

/-- A vip line-item fixture (gold, 1 day, 15 BRL). -/
def vipItem : LineItem :=
  { productId := 11, code := "vip1", name := "VIP Gold", price := 15, quantity := 1,
    subtotal := 15, productType := "vip", data := { level := some "gold", duration := some 1 } }

/-- A linked user fixture owning the scenario transactions. -/
def userSeven : User :=
  { id := 7, fivemIdentifier := some "steam:zz", coins := 3 }

/-- An already-approved transaction with one coins line item. -/
def approvedTx : Transaction :=
  { id := "t1", userId := 7, paymentId := some "p1", amount := 5,
    status := TxStatus.approved, products := [coinsItem] }

/-- Store holding userSeven and the approved transaction. -/
def storeApproved : Store :=
  { users := [userSeven], products := [], transactions := [approvedTx],
    grants := [], logs := [] }

/-- A parser producing an approved event for payment p1 (any payload). -/
def parseApproved : String → Option EfiWebhookData :=
  fun _ => some { paymentId := "p1", status := TxStatus.approved }

/-- A parser producing a cancelled event for payment p1 (any payload). -/
def parseCancelled : String → Option EfiWebhookData :=
  fun _ => some { paymentId := "p1", status := TxStatus.cancelled }

/-- An HMAC stand-in whose output for every input is the string sig1. -/
def constHmac : String → String → String :=
  fun _ _ => "sig1"

/-- A boundary outcome that always reports success. -/
def okOutcome : Nat → Except String ServerResponse :=
  fun _ => Except.ok { success := true }

/-- C1: when the resolved transaction is already approved, a second approved
webhook delivery leaves the grants table and every user account (coins, vip)
unchanged — the fulfillment step is not run again. -/
theorem webhook_duplicate_approved_no_refulfill
    (secret : String) (hmac : String → String → String)
    (parse : String → Option EfiWebhookData) (env : FulfillEnv) (now : Nat)
    (signature payload : String) (s : Store) (wd : EfiWebhookData) (tx : Transaction)
    (hparse : parse payload = some wd)
    (happroved : wd.status = TxStatus.approved)
    (hfind : (getAllTransactions s 1000 0).find?
        (fun t => t.paymentId == some wd.paymentId) = some tx)
    (htx : tx.status = TxStatus.approved) :
    (handleEfiBankWebhook secret hmac parse env now signature payload s).2.grants
        = s.grants ∧
    (handleEfiBankWebhook secret hmac parse env now signature payload s).2.users
        = s.users := by
  unfold handleEfiBankWebhook
  match hv : validateWebhookSignature secret hmac payload signature with
  | Except.error u => exact ⟨rfl, rfl⟩
  | Except.ok false => exact ⟨rfl, rfl⟩
  | Except.ok true =>
    dsimp only
    rw [hparse]
    dsimp only
    rw [hfind]
    dsimp only
    have hcond : ¬(wd.status = TxStatus.approved ∧ tx.status ≠ TxStatus.approved) := by
      simp [happroved, htx]
    rw [if_neg hcond]
    have hcond₂ : ¬(wd.status = TxStatus.cancelled ∨ wd.status = TxStatus.failed) := by
      rw [happroved]
      simp
    rw [if_neg hcond₂]
    simp

/-- Witness for C1: the concrete approved transaction receives a duplicate
approved webhook; grants and users are untouched. -/
theorem webhook_duplicate_approved_no_refulfill_witness :
    (handleEfiBankWebhook "sec" constHmac parseApproved (benignEnv okOutcome) 99
        "sig1" "pl" storeApproved).2.grants = storeApproved.grants ∧
    (handleEfiBankWebhook "sec" constHmac parseApproved (benignEnv okOutcome) 99
        "sig1" "pl" storeApproved).2.users = storeApproved.users :=
  webhook_duplicate_approved_no_refulfill "sec" constHmac parseApproved
    (benignEnv okOutcome) 99 "sig1" "pl" storeApproved
    { paymentId := "p1", status := TxStatus.approved } approvedTx
    rfl rfl (by decide) rfl

/-- C2 counterexample: the transaction t1 is approved (a terminal status),
yet delivering a cancelled webhook for it changes the stored status to
cancelled — the attempt is not a no-op. -/
theorem terminal_status_overwritten_cex :
    (getTransaction storeApproved "t1").map Transaction.status
        = some TxStatus.approved ∧
    (getTransaction
        (handleEfiBankWebhook "sec" constHmac parseCancelled (benignEnv okOutcome) 99
          "sig1" "pl" storeApproved).2 "t1").map Transaction.status
      = some TxStatus.cancelled := by
  decide

/-- C2 (amended): the webhook handler's status write is unconditional —
whenever a valid-signature webhook resolves a transaction whose current
status is terminal (approved, cancelled or failed), the stored status
afterwards equals the incoming webhook status, overwriting the terminal
status when they differ (stated under a fault-free fulfillment
environment, so the outer fulfillment catch does not also rewrite it). -/
theorem webhook_status_update_unconditional
    (secret : String) (hmac : String → String → String)
    (parse : String → Option EfiWebhookData) (env : FulfillEnv)
    (hb : ∀ j, env.createGrantFails j = false) (now : Nat)
    (signature payload : String) (s : Store) (wd : EfiWebhookData) (tx : Transaction)
    (hv : validateWebhookSignature secret hmac payload signature = Except.ok true)
    (hparse : parse payload = some wd)
    (hfind : (getAllTransactions s 1000 0).find?
        (fun t => t.paymentId == some wd.paymentId) = some tx)
    (hterm : tx.status ≠ TxStatus.pending) :
    (getTransaction
        (handleEfiBankWebhook secret hmac parse env now signature payload s).2
        tx.id).map Transaction.status = some wd.status := by
  have hmem : tx ∈ s.transactions :=
    mem_of_mem_getAllTransactions (List.mem_of_find?_eq_some hfind)
  have hsome : ∃ t₀, getTransaction s tx.id = some t₀ := by
    have : (s.transactions.find? (fun t => t.id == tx.id)).isSome :=
      List.find?_isSome.mpr ⟨tx, hmem, by simp⟩
    exact Option.isSome_iff_exists.mp this
  obtain ⟨t₀, ht₀⟩ := hsome
  unfold handleEfiBankWebhook
  rw [hv]
  dsimp only
  rw [hparse]
  dsimp only
  rw [hfind]
  dsimp only
  have hU : getTransaction
      (updateTransaction s tx.id (fun t => { t with status := wd.status }) now)
      tx.id = some { t₀ with status := wd.status, updatedAt := now } := by
    rw [getTransaction_updateTransaction s tx.id
        (fun t => { t with status := wd.status }) now (fun t => rfl), ht₀]
    rfl
  by_cases hc1 : wd.status = TxStatus.approved ∧ tx.status ≠ TxStatus.approved
  · rw [if_pos hc1]
    rw [getTransaction_congr (processApprovedPayment_transactions env hb now tx.id tx.userId _) tx.id]
    rw [getTransaction_congr (logActivity_transactions _ _ _) tx.id]
    rw [hU]
    rfl
  · rw [if_neg hc1]
    by_cases hc2 : wd.status = TxStatus.cancelled ∨ wd.status = TxStatus.failed
    · rw [if_pos hc2]
      unfold processFailedPayment
      rw [getTransaction_congr (logActivity_transactions _ _ _) tx.id]
      rw [getTransaction_congr (logActivity_transactions _ _ _) tx.id]
      rw [hU]
      rfl
    · rw [if_neg hc2]
      rw [getTransaction_congr (logActivity_transactions _ _ _) tx.id]
      rw [hU]
      rfl

/-- Witness for C2's amended claim: the cancelled webhook on the approved
transaction stores status cancelled. -/
theorem webhook_status_update_unconditional_witness :
    (getTransaction
        (handleEfiBankWebhook "sec" constHmac parseCancelled (benignEnv okOutcome) 99
          "sig1" "pl" storeApproved).2 approvedTx.id).map Transaction.status
      = some TxStatus.cancelled :=
  webhook_status_update_unconditional "sec" constHmac parseCancelled
    (benignEnv okOutcome) (fun _ => rfl) 99 "sig1" "pl" storeApproved
    { paymentId := "p1", status := TxStatus.cancelled } approvedTx
    rfl rfl (by decide) (by decide)

/-- An HMAC stand-in returning a fixed 64-character lowercase hex digest
(the shape a sha256 hexdigest has). -/
def hexHmac : String → String → String :=
  fun _ _ => String.mk (List.replicate 64 'a')

/-- A 64-character hex signature that decodes to the same length as the
digest but to different bytes. -/
def wrongSig64 : String :=
  String.mk (List.replicate 64 'b')

/-- C3 counterexample: the signature bb does not match the HMAC digest of
the payload, yet the handler does not answer with an authentication
failure — its hex decoding is shorter than the digest, so
crypto.timingSafeEqual throws outside the try/catch and the response is a
500 from the error middleware (the store is still untouched). -/
theorem invalid_signature_answers_500_cex :
    handleEfiBankWebhook "sec" hexHmac parseApproved (benignEnv okOutcome) 99
        "bb" "pl" storeApproved = (HttpResponse.internalError, storeApproved) ∧
    HttpResponse.internalError ≠ HttpResponse.unauthorized := by
  decide

/-- C3 (amended): with a configured webhook secret, every request whose
signature hex-decodes to a byte string different from the decoded HMAC
digest of the raw payload is rejected before any state is touched: when
the decoded lengths are equal the response is the 401 authentication
failure, and when the lengths differ the constant-time comparison throws
and the response is a 500 from the error middleware — in both cases the
store is returned unchanged. -/
theorem invalid_signature_rejected_before_state
    (secret : String) (hmac : String → String → String)
    (parse : String → Option EfiWebhookData) (env : FulfillEnv) (now : Nat)
    (signature payload : String) (s : Store)
    (hsecret : secret ≠ "")
    (hsig : hexDecode signature ≠ hexDecode (hmac secret payload)) :
    ((hexDecode signature).length = (hexDecode (hmac secret payload)).length →
        handleEfiBankWebhook secret hmac parse env now signature payload s
          = (HttpResponse.unauthorized, s)) ∧
    ((hexDecode signature).length ≠ (hexDecode (hmac secret payload)).length →
        handleEfiBankWebhook secret hmac parse env now signature payload s
          = (HttpResponse.internalError, s)) := by
  constructor
  · intro hlen
    unfold handleEfiBankWebhook validateWebhookSignature
    rw [if_neg hsecret]
    dsimp only
    rw [if_pos hlen]
    have hbeq : (hexDecode signature == hexDecode (hmac secret payload)) = false := by
      simp [hsig]
    rw [hbeq]
  · intro hlen
    unfold handleEfiBankWebhook validateWebhookSignature
    rw [if_neg hsecret]
    dsimp only
    rw [if_neg hlen]

/-- Witness for C3's amended claim: an equal-length non-matching hex
signature receives the 401, a short one the thrown-comparison 500, and the
store is unchanged in both runs. -/
theorem invalid_signature_rejected_before_state_witness :
    handleEfiBankWebhook "sec" hexHmac parseApproved (benignEnv okOutcome) 99
        wrongSig64 "pl" storeApproved
      = (HttpResponse.unauthorized, storeApproved) ∧
    handleEfiBankWebhook "sec" hexHmac parseApproved (benignEnv okOutcome) 99
        "bb" "pl" storeApproved
      = (HttpResponse.internalError, storeApproved) :=
  ⟨(invalid_signature_rejected_before_state "sec" hexHmac parseApproved
        (benignEnv okOutcome) 99 wrongSig64 "pl" storeApproved
        (by decide) (by decide)).1 (by decide),
    (invalid_signature_rejected_before_state "sec" hexHmac parseApproved
        (benignEnv okOutcome) 99 "bb" "pl" storeApproved
        (by decide) (by decide)).2 (by decide)⟩

/-- The generic handler degenerates to its unauthenticated body whenever the
secret or the signature header is missing. -/
theorem handleGenericPaymentWebhook_skip
    (webhookSecret : Option String) (hmac : String → String → String)
    (parse : String → Option GenericWebhookData) (env : FulfillEnv) (now : Nat)
    (signature : Option String) (payload : String) (s : Store)
    (hskip : webhookSecret = none ∨ signature = none) :
    handleGenericPaymentWebhook webhookSecret hmac parse env now signature payload s
      = genericWebhookBody parse env now payload s := by
  rcases hskip with h | h
  · subst h
    cases signature <;> rfl
  · subst h
    cases webhookSecret <;> rfl

/-- C10: when either the WEBHOOK_SECRET variable is unset or the request has
no x-webhook-signature header, the generic payment webhook handler performs
no authentication check at all — for every HMAC function and any signature
value it proceeds to parse the payload and unconditionally updates the
referenced transaction's status (fault-free fulfillment environment). -/
theorem generic_webhook_skips_verification
    (webhookSecret : Option String) (hmac : String → String → String)
    (parse : String → Option GenericWebhookData) (env : FulfillEnv)
    (hb : ∀ j, env.createGrantFails j = false) (now : Nat)
    (signature : Option String) (payload : String) (s : Store)
    (wd : GenericWebhookData) (tid : String) (st : TxStatus) (tx : Transaction)
    (hskip : webhookSecret = none ∨ signature = none)
    (hparse : parse payload = some wd)
    (htid : wd.transactionId = some tid)
    (hst : wd.status = some st)
    (htx : getTransaction s tid = some tx) :
    (handleGenericPaymentWebhook webhookSecret hmac parse env now signature
        payload s).1 = HttpResponse.ok tid ∧
    (getTransaction
        (handleGenericPaymentWebhook webhookSecret hmac parse env now signature
          payload s).2 tid).map Transaction.status = some st := by
  rw [handleGenericPaymentWebhook_skip webhookSecret hmac parse env now signature
    payload s hskip]
  unfold genericWebhookBody
  rw [hparse]
  dsimp only
  rw [htid, hst]
  dsimp only
  rw [htx]
  dsimp only
  cases hpid : wd.paymentId with
  | none =>
      dsimp only
      have hU : getTransaction
          (updateTransaction s tid (fun t => { t with status := st }) now) tid
          = some { tx with status := st, updatedAt := now } := by
        rw [getTransaction_updateTransaction s tid
          (fun t => { t with status := st }) now (fun t => rfl), htx]
        rfl
      refine ⟨rfl, ?_⟩
      by_cases hc1 : st = TxStatus.approved ∧ tx.status ≠ TxStatus.approved
      · rw [if_pos hc1]
        rw [getTransaction_congr
          (processApprovedPayment_transactions env hb now tid tx.userId _) tid]
        rw [getTransaction_congr (logActivity_transactions _ _ _) tid, hU]
        rfl
      · rw [if_neg hc1]
        by_cases hc2 : st = TxStatus.cancelled ∨ st = TxStatus.failed
        · rw [if_pos hc2]
          unfold processFailedPayment
          rw [getTransaction_congr (logActivity_transactions _ _ _) tid]
          rw [getTransaction_congr (logActivity_transactions _ _ _) tid, hU]
          rfl
        · rw [if_neg hc2]
          rw [getTransaction_congr (logActivity_transactions _ _ _) tid, hU]
          rfl
  | some pid =>
      dsimp only
      have hU : getTransaction
          (updateTransaction s tid
            (fun t => { t with status := st, paymentId := some pid }) now) tid
          = some { tx with status := st, paymentId := some pid, updatedAt := now } := by
        rw [getTransaction_updateTransaction s tid
          (fun t => { t with status := st, paymentId := some pid }) now (fun t => rfl), htx]
        rfl
      refine ⟨rfl, ?_⟩
      by_cases hc1 : st = TxStatus.approved ∧ tx.status ≠ TxStatus.approved
      · rw [if_pos hc1]
        rw [getTransaction_congr
          (processApprovedPayment_transactions env hb now tid tx.userId _) tid]
        rw [getTransaction_congr (logActivity_transactions _ _ _) tid, hU]
        rfl
      · rw [if_neg hc1]
        by_cases hc2 : st = TxStatus.cancelled ∨ st = TxStatus.failed
        · rw [if_pos hc2]
          unfold processFailedPayment
          rw [getTransaction_congr (logActivity_transactions _ _ _) tid]
          rw [getTransaction_congr (logActivity_transactions _ _ _) tid, hU]
          rfl
        · rw [if_neg hc2]
          rw [getTransaction_congr (logActivity_transactions _ _ _) tid, hU]
          rfl

/-- A pending transaction with one coins line item, for the generic webhook
scenario. -/
def pendingTx : Transaction :=
  { id := "t2", userId := 7, paymentId := some "p2", amount := 5,
    status := TxStatus.pending, products := [coinsItem] }

/-- Store holding userSeven and the pending transaction. -/
def storePending : Store :=
  { users := [userSeven], products := [], transactions := [pendingTx],
    grants := [], logs := [] }

/-- A generic-webhook parser yielding an approved event for transaction t2. -/
def parseGenericApproved : String → Option GenericWebhookData :=
  fun _ => some { transactionId := some "t2", status := some TxStatus.approved }

/-- Witness for C10: with no WEBHOOK_SECRET configured and a garbage
signature header, the generic webhook is accepted and flips the pending
transaction to approved. -/
theorem generic_webhook_skips_verification_witness :
    (handleGenericPaymentWebhook none constHmac parseGenericApproved
        (benignEnv okOutcome) 99 (some "garbage") "pl" storePending).1
      = HttpResponse.ok "t2" ∧
    (getTransaction
        (handleGenericPaymentWebhook none constHmac parseGenericApproved
          (benignEnv okOutcome) 99 (some "garbage") "pl" storePending).2
        "t2").map Transaction.status = some TxStatus.approved :=
  generic_webhook_skips_verification none constHmac parseGenericApproved
    (benignEnv okOutcome) (fun _ => rfl) 99 (some "garbage") "pl" storePending
    { transactionId := some "t2", status := some TxStatus.approved } "t2"
    TxStatus.approved pendingTx (Or.inl rfl) rfl rfl rfl (by decide)

/-! ## C4: per-line-item failure containment -/

/-- An approved transaction with two line items (coins, then vip). -/
def twoItemTx : Transaction :=
  { id := "t3", userId := 7, paymentId := some "p3", amount := 20,
    status := TxStatus.approved, products := [coinsItem, vipItem] }

/-- Store holding userSeven and the two-item approved transaction. -/
def storeTwoItems : Store :=
  { users := [userSeven], products := [], transactions := [twoItemTx],
    grants := [], logs := [] }

/-- An environment in which the grant insertion for the first line item
throws (and delivery would succeed). -/
def failingCreateEnv : FulfillEnv :=
  { deliver := fun _ => Except.ok { success := true }
    createGrantFails := fun i => i == 0
    updateGrantFails := fun _ => false }

/-- C4 counterexample: an exception while creating the first line item's
Grant is not contained to that item — fulfillment aborts (no grants at all,
the second item included) and the outer catch rewrites the approved
transaction to status failed. -/
theorem fulfillment_rollback_cex :
    (getTransaction storeTwoItems "t3").map Transaction.status
        = some TxStatus.approved ∧
    (getTransaction (processApprovedPayment failingCreateEnv 99 "t3" 7 storeTwoItems)
        "t3").map Transaction.status = some TxStatus.failed ∧
    (processApprovedPayment failingCreateEnv 99 "t3" 7 storeTwoItems).grants = [] := by
  decide

/-- C4 (amended): failure containment holds only for the per-item try/catch
scope (the delivery attempt and the grant-status update after it): whatever
the delivery outcomes and updateGrant faults are, fulfillment still creates
one grant per line item and never touches the transaction list, so the
transaction stays approved. But an exception outside that scope — the grant
insertion itself — aborts the remaining items and the outer catch sets the
transaction status to failed. -/
theorem per_item_failure_containment_scoped :
    (∀ (env : FulfillEnv), (∀ j, env.createGrantFails j = false) →
      ∀ (now : Nat) (tid : String) (uid : Nat) (s : Store) (tx : Transaction)
        (user : User),
        getTransaction s tid = some tx → getUser s uid = some user →
        (processApprovedPayment env now tid uid s).transactions = s.transactions ∧
        (processApprovedPayment env now tid uid s).grants.length
          = s.grants.length + tx.products.length) ∧
    (∀ (env : FulfillEnv), env.createGrantFails 0 = true →
      ∀ (now : Nat) (tid : String) (uid : Nat) (s : Store) (tx : Transaction)
        (user : User),
        getTransaction s tid = some tx → getUser s uid = some user →
        tx.products ≠ [] →
        (getTransaction (processApprovedPayment env now tid uid s) tid).map
            Transaction.status = some TxStatus.failed ∧
        (processApprovedPayment env now tid uid s).grants = s.grants) := by
  constructor
  · intro env hb now tid uid s tx user hgt hgu
    refine ⟨processApprovedPayment_transactions env hb now tid uid s, ?_⟩
    unfold processApprovedPayment
    rw [hgt, hgu]
    dsimp only
    obtain ⟨s', hs'⟩ := grantLoop_benign env hb now tid user tx.products 0 s
    rw [hs']
    obtain ⟨-, -, -, h₄⟩ := grantLoop_ok_spec env now tid user tx.products 0 s s' hs'
    dsimp only
    rw [logActivity_grants, effectsLoop_grants, h₄]
  · intro env hf now tid uid s tx user hgt hgu hne
    unfold processApprovedPayment
    rw [hgt, hgu]
    dsimp only
    cases hprod : tx.products with
    | nil => exact absurd hprod hne
    | cons p rest =>
        have hloop : grantLoop env now tid user (p :: rest) 0 s = Except.error s := by
          simp only [grantLoop, hf, if_true]
        rw [hloop]
        dsimp only
        constructor
        · rw [getTransaction_updateTransaction s tid
            (fun t => { t with status := TxStatus.failed }) now (fun t => rfl), hgt]
          rfl
        · rw [updateTransaction_grants]

/-- Witness for C4's amended claim: on the two-item transaction, a fault-free
insertion environment yields exactly two grants with the transaction list
untouched, while the first-item insertion fault yields status failed and no
grants. -/
theorem per_item_failure_containment_scoped_witness :
    ((processApprovedPayment (benignEnv okOutcome) 99 "t3" 7 storeTwoItems).transactions
        = storeTwoItems.transactions ∧
      (processApprovedPayment (benignEnv okOutcome) 99 "t3" 7 storeTwoItems).grants.length
        = storeTwoItems.grants.length + twoItemTx.products.length) ∧
    ((getTransaction (processApprovedPayment failingCreateEnv 99 "t3" 7 storeTwoItems)
          "t3").map Transaction.status = some TxStatus.failed ∧
      (processApprovedPayment failingCreateEnv 99 "t3" 7 storeTwoItems).grants
        = storeTwoItems.grants) :=
  ⟨per_item_failure_containment_scoped.1 (benignEnv okOutcome) (fun _ => rfl)
      99 "t3" 7 storeTwoItems twoItemTx userSeven (by decide) (by decide),
    per_item_failure_containment_scoped.2 failingCreateEnv rfl
      99 "t3" 7 storeTwoItems twoItemTx userSeven (by decide) (by decide) (by decide)⟩

/-! ## C5: timed-entitlement (vip) expiry stacking -/

/-- A user who is currently subscribed: the entitlement expires at
timestamp 2000000, later than the purchase time 1000000. -/
def subscribedUser : User :=
  { id := 7, fivemIdentifier := none, vipLevel := "gold", vipExpires := some 2000000 }

/-- An approved transaction buying one 1-day vip item. -/
def vipTx : Transaction :=
  { id := "t4", userId := 7, paymentId := some "p4", amount := 15,
    status := TxStatus.approved, products := [vipItem] }

/-- Store holding the subscribed user and the vip transaction. -/
def storeVip : Store :=
  { users := [subscribedUser], products := [], transactions := [vipTx],
    grants := [], logs := [] }

/-- C5 counterexample: fulfilling the 1-day vip purchase at now = 1000000
for a user whose entitlement still runs until 2000000 stores expiry
1000000 + 86400000 = 87400000, not max(now, currentExpiry) + duration
= 88400000 — the remaining time is discarded. -/
theorem vip_expiry_ignores_current_cex :
    (getUser (processApprovedPayment (benignEnv okOutcome) 1000000 "t4" 7 storeVip)
        7).map User.vipExpires = some (some 87400000) ∧
    (87400000 : Nat) ≠ max 1000000 2000000 + 1 * 24 * 60 * 60 * 1000 := by
  decide

/-- C5 (amended): fulfilling a vip line item (purchase path) or a vip admin
grant sets the user's tier to the purchased level and the expiry to
now + purchasedDuration days, computed from now alone — the current expiry
is ignored, so a user who buys while already subscribed loses the
remaining time. -/
theorem vip_expiry_extends_from_now :
    (∀ (env : FulfillEnv) (now : Nat) (tid : String) (uid : Nat) (s : Store)
        (tx : Transaction) (user : User) (p : LineItem),
        getTransaction s tid = some tx → getUser s uid = some user →
        tx.products = [p] → p.productType = "vip" →
        env.createGrantFails 0 = false →
        (getUser (processApprovedPayment env now tid uid s) uid).map
            (fun u => (u.vipLevel, u.vipExpires))
          = some (jsOrStr p.data.level "bronze",
              some (now + jsOrNat p.data.duration 30 * 24 * 60 * 60 * 1000))) ∧
    (∀ (outcome : Except String ServerResponse) (now : Nat) (adminId uid : Nat)
        (gd : GrantData) (s : Store) (user : User),
        getUser s uid = some user →
        (getUser (grantItemsToUser outcome now adminId uid "vip" gd s) uid).map
            (fun u => (u.vipLevel, u.vipExpires))
          = some (jsOrStr gd.level "bronze",
              some (now + jsOrNat gd.duration 30 * 24 * 60 * 60 * 1000))) := by
  constructor
  · intro env now tid uid s tx user p hgt hgu hprod htype hfail
    unfold processApprovedPayment
    rw [hgt, hgu]
    dsimp only
    rw [hprod]
    have hloop : grantLoop env now tid user [p] 0 s
        = Except.ok (grantStep env now tid user p 0 s) := by
      simp [grantLoop, hfail]
    rw [hloop]
    dsimp only
    simp only [effectsLoop]
    have hcoins : (p.productType == "coins") = false := by
      rw [htype]
      rfl
    have hvip : (p.productType == "vip") = true := by
      rw [htype]
      rfl
    unfold effectsStep
    simp only [hcoins, hvip, if_true, if_false, Bool.false_eq_true, Bool.true_eq_false]
    rw [getUser_congr (logActivity_users _ _ _) uid,
      getUser_congr (stockStep_users _ _) uid]
    rw [getUser_updateUser _ uid _ now (by intro u; rfl)]
    rw [getUser_congr (grantStep_users env now tid user p 0 s) uid, hgu]
    rfl
  · intro outcome now adminId uid gd s user hgu
    unfold grantItemsToUser
    rw [hgu]
    dsimp only
    have hcoins : (("vip" : String) == "coins") = false := rfl
    have hvip : (("vip" : String) == "vip") = true := rfl
    simp only [hcoins, hvip, if_true, if_false, Bool.false_eq_true, Bool.true_eq_false]
    rw [getUser_congr (logActivity_users _ _ _) uid]
    rw [getUser_updateUser _ uid _ now (by intro u; rfl)]
    cases hfi : user.fivemIdentifier with
    | none =>
        dsimp only
        rw [getUser_congr (createGrant_users _ _) uid,
          getUser_congr (freshId_users s) uid, hgu]
        rfl
    | some ident =>
        dsimp only
        by_cases hd : (deliverItems outcome).delivered
        · simp only [hd, if_true]
          rw [getUser_congr (updateGrant_users _ _ _) uid,
            getUser_congr (createGrant_users _ _) uid,
            getUser_congr (freshId_users s) uid, hgu]
          rfl
        · simp only [hd, if_false, Bool.false_eq_true]
          rw [getUser_congr (createGrant_users _ _) uid,
            getUser_congr (freshId_users s) uid, hgu]
          rfl

/-- An admin vip grant body fixture with a level and no duration field. -/
def silverGrantData : GrantData :=
  { level := some "silver" }

/-- Witness for C5's amended claim: both the purchase path (on the
subscribed user) and the admin path produce expiry now + 1 day resp.
now + 30 days from now alone. -/
theorem vip_expiry_extends_from_now_witness :
    ((getUser (processApprovedPayment (benignEnv okOutcome) 1000000 "t4" 7 storeVip)
          7).map (fun u => (u.vipLevel, u.vipExpires))
        = some (jsOrStr vipItem.data.level "bronze",
            some (1000000 + jsOrNat vipItem.data.duration 30 * 24 * 60 * 60 * 1000))) ∧
    ((getUser (grantItemsToUser (Except.ok { success := true }) 1000000 1 7
          "vip" silverGrantData storeVip) 7).map
            (fun u => (u.vipLevel, u.vipExpires))
        = some (jsOrStr silverGrantData.level "bronze",
            some (1000000 + jsOrNat silverGrantData.duration 30
              * 24 * 60 * 60 * 1000))) :=
  ⟨vip_expiry_extends_from_now.1 (benignEnv okOutcome) 1000000 "t4" 7 storeVip
      vipTx subscribedUser vipItem (by decide) (by decide) rfl rfl rfl,
    vip_expiry_extends_from_now.2 (Except.ok { success := true }) 1000000 1 7
      silverGrantData storeVip subscribedUser (by decide)⟩

/-! ## C9: the checkout amount invariant -/

/-- The accumulated total of the checkout validation loop equals the sum of
the line-item subtotals of the snapshot it builds, and every snapshot entry
records subtotal = price * quantity. -/
theorem buildCart_spec (s : Store) :
    ∀ (items : List OrderItem) (acc : List LineItem) (tot : ℚ)
      (cart : List LineItem) (total : ℚ),
      (∀ li ∈ acc, li.subtotal = li.price * li.quantity) →
      tot = (acc.map LineItem.subtotal).sum →
      buildCart s items acc tot = Except.ok (cart, total) →
      total = (cart.map LineItem.subtotal).sum ∧
      ∀ li ∈ cart, li.subtotal = li.price * li.quantity := by
  intro items
  induction items with
  | nil =>
      intro acc tot cart total hacc htot h
      simp only [buildCart] at h
      cases h
      constructor
      · rw [htot]
        simp [List.map_reverse, List.sum_reverse]
      · intro li hli
        exact hacc li (List.mem_reverse.mp hli)
  | cons it rest ih =>
      intro acc tot cart total hacc htot h
      simp only [buildCart] at h
      cases hgp : getProduct s it.productId with
      | none =>
          rw [hgp] at h
          cases h
      | some product =>
          rw [hgp] at h
          dsimp only at h
          by_cases hact : product.active = false
          · rw [if_pos hact] at h
            cases h
          · rw [if_neg hact] at h
            by_cases hstock : product.stock ≠ -1 ∧ product.stock < Int.ofNat it.quantity
            · rw [if_pos hstock] at h
              cases h
            · rw [if_neg hstock] at h
              refine ih _ _ cart total ?_ ?_ h
              · intro li hli
                rcases List.mem_cons.mp hli with hhead | htail
                · subst hhead
                  rfl
                · exact hacc li htail
              · rw [htot]
                simp [List.map_cons, List.sum_cons]
                ring

/-- C9: every transaction created by the checkout stores an amount equal to
the sum of the line-item subtotals of its immutable snapshot (each subtotal
being the unit price snapshot times the quantity), and no later catalog
update (updateProduct, the only write path for product prices) ever touches
the transaction list. -/
theorem checkout_amount_eq_sum :
    (∀ (pix : Except String PixInfo) (now userId : Nat) (items : List OrderItem)
        (s : Store) (tid : String) (s' : Store),
        createPayment pix now userId items s = (PayResponse.created tid, s') →
        ∀ t, getTransaction s' tid = some t →
          t.amount = (t.products.map LineItem.subtotal).sum ∧
          ∀ li ∈ t.products, li.subtotal = li.price * li.quantity) ∧
    (∀ (s : Store) (productId : Nat) (f : Product → Product),
        (updateProduct s productId f).transactions = s.transactions) := by
  constructor
  · intro pix now userId items s tid s' h t ht
    unfold createPayment at h
    cases hbc : buildCart s items [] 0 with
    | error e =>
        rw [hbc] at h
        cases h
    | ok pair =>
        obtain ⟨cart, total⟩ := pair
        rw [hbc] at h
        dsimp only at h
        by_cases htot : total ≤ 0
        · rw [if_pos htot] at h
          cases h
        · rw [if_neg htot] at h
          cases pix with
          | error e =>
              dsimp only at h
              cases h
          | ok info =>
              dsimp only at h
              rw [Prod.mk.injEq] at h
              obtain ⟨h₁, h₂⟩ := h
              injection h₁ with htid
              subst htid
              subst h₂
              rw [getTransaction_logActivity, getTransaction_updateTransaction] at ht
              pick_goal 2
              · intro t'
                rfl
              simp only [getTransaction, createTransaction, List.find?_cons,
                beq_self_eq_true, Option.map_some'] at ht
              obtain rfl := (Option.some.injEq _ _).mp ht
              obtain ⟨hA, hB⟩ := buildCart_spec s items [] 0 cart total
                (by intro li hli; cases hli) rfl hbc
              constructor
              · exact hA
              · exact hB
  · intro s productId f
    rfl

/-- Catalog product for the coins pack (unlimited stock). -/
def coinsProduct : Product :=
  { id := 10, code := "c100", name := "Coin Pack", price := 5,
    productType := "coins", data := { amount := some 100 }, stock := -1 }

/-- Catalog product for the 1-day vip (finite stock). -/
def vipProduct : Product :=
  { id := 11, code := "vip1", name := "VIP Gold", price := 15,
    productType := "vip", data := { level := some "gold", duration := some 1 },
    stock := 3 }

/-- Store with the two catalog products and no transactions yet. -/
def storeCatalog : Store :=
  { users := [userSeven], products := [coinsProduct, vipProduct],
    transactions := [], grants := [], logs := [] }

/-- A two-item checkout request (one of each product). -/
def checkoutItems : List OrderItem :=
  [{ productId := 10, quantity := 1 }, { productId := 11, quantity := 1 }]

/-- A successful PIX charge creation. -/
def pixOk : Except String PixInfo :=
  Except.ok { paymentId := "pix9", qrCode := "qr", expiresAt := 12345 }

/-- The transaction record the scenario checkout stores. -/
def checkoutTx : Transaction :=
  { id := "uuid-0", userId := 7, paymentId := some "pix9", amount := 20,
    status := TxStatus.pending, qrCode := some "qr", expiresAt := some 12345,
    products := [coinsItem, vipItem], createdAt := 0, updatedAt := 0 }

/-- Evaluation of the validation loop on the scenario catalog. -/
theorem checkout_buildCart :
    buildCart storeCatalog checkoutItems [] 0
      = Except.ok ([coinsItem, vipItem], 20) := by
  have hp10 : getProduct storeCatalog 10 = some coinsProduct := rfl
  have hp11 : getProduct storeCatalog 11 = some vipProduct := rfl
  simp only [checkoutItems, buildCart, hp10, hp11]
  norm_num [coinsProduct, vipProduct, coinsItem, vipItem]

/-- The scenario checkout is accepted and answers with the fresh id. -/
theorem checkout_run_response :
    (createPayment pixOk 0 7 checkoutItems storeCatalog).1
      = PayResponse.created "uuid-0" := by
  unfold createPayment
  rw [checkout_buildCart]
  dsimp only
  rw [if_neg (by norm_num : ¬((20 : ℚ) ≤ 0))]
  rfl

/-- The scenario checkout stores exactly the expected transaction record. -/
theorem checkout_run_tx :
    getTransaction (createPayment pixOk 0 7 checkoutItems storeCatalog).2 "uuid-0"
      = some checkoutTx := by
  unfold createPayment
  rw [checkout_buildCart]
  dsimp only
  rw [if_neg (by norm_num : ¬((20 : ℚ) ≤ 0))]
  rfl

/-- Witness for C9: the concrete 5 + 15 BRL checkout stores amount 20, equal
to the sum of the stored subtotals. -/
theorem checkout_amount_eq_sum_witness :
    checkoutTx.amount = (checkoutTx.products.map LineItem.subtotal).sum ∧
    ∀ li ∈ checkoutTx.products, li.subtotal = li.price * li.quantity :=
  checkout_amount_eq_sum.1 pixOk 0 7 checkoutItems storeCatalog "uuid-0"
    (createPayment pixOk 0 7 checkoutItems storeCatalog).2
    (by rw [← checkout_run_response]) checkoutTx checkout_run_tx

end Testerp
